import Mathlib

/-!
Verification of the birdseye repository: a shallow embedding of
src/ebird_checklist.py and src/generate_site.py.

Network calls are modelled by passing their results as explicit inputs
(the taxonomy lookup, the checklist payload, the photo lookup, the hotspot
name).  Python dictionaries whose keys may be absent are modelled with
Option-valued fields; Python exceptions are modelled with Except PyErr.
-/

namespace Birdseye

/-- Values that can appear in the JSON fields the program reads
(integers, strings, null). -/
inductive PyVal where
| pyInt : Int → PyVal
| pyStr : String → PyVal
| pyNone : PyVal
deriving DecidableEq, Repr

/-- Python truthiness of the modelled values: 0, the empty string and None
are falsy. -/
def pyTruthy : PyVal → Bool
| .pyInt n => n != 0
| .pyStr s => s != ""
| .pyNone => false

/-- Python str() of the modelled values. -/
def pyStrOf : PyVal → String
| .pyInt n => toString n
| .pyStr s => s
| .pyNone => "None"

/-- The exception kinds raised by the modelled code.  HTTPError and
JSONDecodeError are subclasses of requests.RequestException. -/
inductive PyErr where
| keyError : String → PyErr
| typeError : String → PyErr
| valueError : String → PyErr
| httpError : Nat → PyErr
| requestException : PyErr
| jsonDecodeError : PyErr
deriving DecidableEq, Repr

/-! ### URL Parser (ebird_checklist.py, extract_checklist_id, lines 16-29) -/

/-- The starting codepoints of the blocks of ten consecutive Unicode
decimal digits (general category Nd, the characters the regex class of
digits matches in a str pattern); each block runs from value 0 at the
listed codepoint to value 9 nine codepoints later.  Generated from the
Unicode data of current CPython. -/
def digitBlocks : List Nat :=
  [0x30, 0x660, 0x6f0, 0x7c0, 0x966, 0x9e6, 0xa66, 0xae6, 0xb66, 0xbe6,
   0xc66, 0xce6, 0xd66, 0xde6, 0xe50, 0xed0, 0xf20, 0x1040, 0x1090, 0x17e0,
   0x1810, 0x1946, 0x19d0, 0x1a80, 0x1a90, 0x1b50, 0x1bb0, 0x1c40, 0x1c50,
   0xa620, 0xa8d0, 0xa900, 0xa9d0, 0xa9f0, 0xaa50, 0xabf0, 0xff10, 0x104a0,
   0x10d30, 0x11066, 0x110f0, 0x11136, 0x111d0, 0x112f0, 0x11450, 0x114d0,
   0x11650, 0x116c0, 0x11730, 0x118e0, 0x11950, 0x11c50, 0x11d50, 0x11da0,
   0x16a60, 0x16ac0, 0x16b50, 0x1d7ce, 0x1d7d8, 0x1d7e2, 0x1d7ec, 0x1d7f6,
   0x1e140, 0x1e2f0, 0x1e950, 0x1fbf0]

/-- The digit class of a str-pattern regex: any Unicode decimal digit
(Py_UNICODE_ISDECIMAL), not only the ASCII digits. -/
def isReDigit (c : Char) : Bool :=
  digitBlocks.any fun lo => lo ≤ c.toNat && c.toNat < lo + 10

/-- The numeric value of a Unicode decimal digit, as int() reads it: its
offset in its block of ten. -/
def digitValU (c : Char) : Nat :=
  match digitBlocks.find? (fun lo => lo ≤ c.toNat && c.toNat < lo + 10) with
  | some lo => c.toNat - lo
  | none => 0

/-- One record of the taxonomy payload; sciName is optional because the
code reads it with s.get("sciName", ""). -/
structure TaxonRecord where
  speciesCode : String
  comName : String
  sciName : Option String
deriving DecidableEq, Repr

/-- The per-code info dictionary; both fields are Option so that a
dictionary missing one of the keys "name" or "sci_name" can be expressed
(indexing a missing key raises KeyError). -/
structure InfoDict where
  name : Option String
  sci_name : Option String
deriving DecidableEq, Repr

/-- get_taxonomy (lines 42-45): the dictionary comprehension mapping each
record to the pair of its species code and the info dictionary holding
"name" and "sci_name" (the latter defaulting to the empty string). -/
def get_taxonomy (taxonomy : List TaxonRecord) : List (String × InfoDict) :=
  taxonomy.map fun s => (s.speciesCode, ⟨some s.comName, some (s.sciName.getD "")⟩)

/-! ### Checklist Assembler (get_checklist_species, lines 101-141) -/

/-- One observation record; every field is read with .get, so every field
may be absent. -/
structure Obs where
  speciesCode : Option String
  howManyAtleast : Option PyVal
  howManyAtmost : Option PyVal
deriving DecidableEq, Repr

/-- One assembled species entry (the dictionary built at lines 129-135). -/
structure SpeciesEntry where
  code : String
  name : String
  sci_name : String
  count : PyVal
  photo_url : Option String
deriving DecidableEq, Repr

/-- Line 125: obs.get("howManyAtleast", obs.get("howManyAtmost", "X")).
dict.get keys on presence of the key, not on truthiness of the value. -/
def resolveCount (obs : Obs) : PyVal :=
  match obs.howManyAtleast with
  | some v => v
  | none => obs.howManyAtmost.getD (PyVal.pyStr "X")

/-- The loop body of get_checklist_species (lines 120-135) for one
observation.  taxonomy is the fetched code-to-info mapping, photo the
result of get_species_photo per common name.  Indexing info["name"] and
info["sci_name"] raises KeyError when the key is absent. -/
def assembleObs (taxonomy : String → Option InfoDict)
    (photo : String → Option String) (obs : Obs) : Except PyErr SpeciesEntry :=
  let code := obs.speciesCode.getD ""
  let info := (taxonomy code).getD ⟨some code, some ""⟩
  match info.name with
  | none => .error (.keyError "name")
  | some name =>
    match info.sci_name with
    | none => .error (.keyError "sci_name")
    | some sci_name =>
      .ok ⟨code, name, sci_name, resolveCount obs, photo name⟩

/-- The Python expression a or b for an optional string a (None and the
empty string are falsy). -/
def orElseStr (a : Option String) (b : String) : String :=
  match a with
  | some s => if s ≠ "" then s else b
  | none => b

/-- Line 116: checklist.get("locName") or get_location_name(...) or
"Unknown Location".  hotspotName stands for the get_location_name result. -/
def resolveLocation (locName : Option String) (hotspotName : Option String) : String :=
  orElseStr locName (orElseStr hotspotName "Unknown Location")

/-! ### Date formatting (format_date, lines 91-98)

datetime.strptime compiles each directive to a regular expression
(CPython _strptime): the year directive is exactly four digits; the month
directive is 1[0-2] or 0[1-9] or [1-9]; the day directive is 3[0-1] or
[1-2] then a digit, or 0[1-9] or [1-9] or space-[1-9]; the hour directive
is 2[0-3] or [0-1] then a digit, or a digit; the minute directive is
[0-5] then a digit, or a digit.  The bracketed classes are ASCII
character ranges, while the bare digit class matches any Unicode decimal
digit (and int() reads those digits by their decimal value).  Whitespace
in the format matches one or more whitespace characters; the whole input
must be consumed.  The alternatives are ordered; first-match is faithful
because every second position of a two-character alternative requires a
digit while every following literal is not a digit, and the
space-leading day alternative is disjoint from the digit-leading ones.
The datetime constructor then rejects year 0 and days beyond the month
length. -/

def digitVal (c : Char) : Nat := c.toNat - '0'.toNat

/-- The year directive: exactly four decimal digits. -/
def parseY : List Char → Option (Nat × List Char)
| a :: b :: c :: d :: rest =>
  if isReDigit a ∧ isReDigit b ∧ isReDigit c ∧ isReDigit d then
    some (1000 * digitValU a + 100 * digitValU b + 10 * digitValU c + digitValU d, rest)
  else none
| _ => none

/-- The month directive (ASCII character classes only). -/
def parseMonth : List Char → Option (Nat × List Char)
| '1' :: c :: rest =>
  if c = '0' ∨ c = '1' ∨ c = '2' then some (10 + digitVal c, rest) else some (1, c :: rest)
| '0' :: c :: rest =>
  if c.isDigit ∧ c ≠ '0' then some (digitVal c, rest) else none
| c :: rest =>
  if c.isDigit ∧ c ≠ '0' then some (digitVal c, rest) else none
| [] => none

/-- The day directive, ordered alternatives: 3[0-1], [1-2] then any
decimal digit, 0[1-9], [1-9], and space then [1-9] (the space-padded day
of asctime-style dates). -/
def parseDay : List Char → Option (Nat × List Char)
| '3' :: c :: rest =>
  if c = '0' ∨ c = '1' then some (30 + digitVal c, rest) else some (3, c :: rest)
| '1' :: c :: rest =>
  if isReDigit c then some (10 + digitValU c, rest) else some (1, c :: rest)
| '2' :: c :: rest =>
  if isReDigit c then some (20 + digitValU c, rest) else some (2, c :: rest)
| '0' :: c :: rest =>
  if c.isDigit ∧ c ≠ '0' then some (digitVal c, rest) else none
| ' ' :: c :: rest =>
  if c.isDigit ∧ c ≠ '0' then some (digitVal c, rest) else none
| c :: rest =>
  if c.isDigit ∧ c ≠ '0' then some (digitVal c, rest) else none
| [] => none

/-- The hour directive: 2[0-3], [0-1] then any decimal digit, or any
decimal digit. -/
def parseHour : List Char → Option (Nat × List Char)
| '2' :: c :: rest =>
  if c = '0' ∨ c = '1' ∨ c = '2' ∨ c = '3' then some (20 + digitVal c, rest)
  else some (2, c :: rest)
| '0' :: c :: rest =>
  if isReDigit c then some (digitValU c, rest) else some (0, c :: rest)
| '1' :: c :: rest =>
  if isReDigit c then some (10 + digitValU c, rest) else some (1, c :: rest)
| c :: rest =>
  if isReDigit c then some (digitValU c, rest) else none
| [] => none

/-- The minute directive: [0-5] then any decimal digit, or any decimal
digit. -/
def parseMinute : List Char → Option (Nat × List Char)
| a :: b :: rest =>
  if (a = '0' ∨ a = '1' ∨ a = '2' ∨ a = '3' ∨ a = '4' ∨ a = '5') ∧ isReDigit b then
    some (10 * digitVal a + digitValU b, rest)
  else if isReDigit a then some (digitValU a, b :: rest)
  else none
| [a] => if isReDigit a then some (digitValU a, []) else none
| [] => none

/-- A literal character of the format. -/
def parseLit (c : Char) : List Char → Option (List Char)
| x :: rest => if x = c then some rest else none
| [] => none

/-- The whitespace class of a str-pattern regex (Py_UNICODE_ISSPACE):
the ASCII whitespace characters, the separator controls 0x1c to 0x1f,
next line, no-break space, ogham space mark, the Unicode space
separators, the line and paragraph separators, narrow no-break space,
medium mathematical space and ideographic space. -/
def isPySpace (c : Char) : Bool :=
  (0x9 ≤ c.toNat && c.toNat ≤ 0xd) || c = ' ' ||
  (0x1c ≤ c.toNat && c.toNat ≤ 0x1f) || c.toNat = 0x85 || c.toNat = 0xa0 ||
  c.toNat = 0x1680 || (0x2000 ≤ c.toNat && c.toNat ≤ 0x200a) ||
  c.toNat = 0x2028 || c.toNat = 0x2029 || c.toNat = 0x202f ||
  c.toNat = 0x205f || c.toNat = 0x3000

/-- Whitespace in a strptime format matches one or more whitespace
characters. -/
def parseSpaces : List Char → Option (List Char)
| c :: rest => if isPySpace c then some (rest.dropWhile isPySpace) else none
| [] => none

def isLeap (y : Nat) : Bool := y % 4 = 0 && (y % 100 ≠ 0 || y % 400 = 0)

def daysInMonth (y m : Nat) : Nat :=
  if m = 2 then (if isLeap y then 29 else 28)
  else if m = 4 ∨ m = 6 ∨ m = 9 ∨ m = 11 then 30
  else 31

structure DateYMD where
  year : Nat
  month : Nat
  day : Nat
deriving DecidableEq, Repr

/-- The datetime constructor check: MINYEAR 1, MAXYEAR 9999, valid month
and day (hour and minute are already bounded by the directives). -/
def mkDate (y m d : Nat) : Option DateYMD :=
  if 1 ≤ y ∧ y ≤ 9999 ∧ 1 ≤ m ∧ m ≤ 12 ∧ 1 ≤ d ∧ d ≤ daysInMonth y m then
    some ⟨y, m, d⟩
  else none

/-- datetime.strptime with the format of four-digit year, dash, month,
dash, day, whitespace, hour, colon, minute. -/
def strptimeYmdHm (s : String) : Option DateYMD := do
  let l0 := s.toList
  let (y, l1) ← parseY l0
  let l2 ← parseLit '-' l1
  let (m, l3) ← parseMonth l2
  let l4 ← parseLit '-' l3
  let (d, l5) ← parseDay l4
  let l6 ← parseSpaces l5
  let (_h, l7) ← parseHour l6
  let l8 ← parseLit ':' l7
  let (_mi, l9) ← parseMinute l8
  if l9 = [] then mkDate y m d else none

/-- datetime.strptime with the date-only format. -/
def strptimeYmd (s : String) : Option DateYMD := do
  let l0 := s.toList
  let (y, l1) ← parseY l0
  let l2 ← parseLit '-' l1
  let (m, l3) ← parseMonth l2
  let l4 ← parseLit '-' l3
  let (d, l5) ← parseDay l4
  if l5 = [] then mkDate y m d else none

def monthName : Nat → String
| 1 => "January"
| 2 => "February"
| 3 => "March"
| 4 => "April"
| 5 => "May"
| 6 => "June"
| 7 => "July"
| 8 => "August"
| 9 => "September"
| 10 => "October"
| 11 => "November"
| 12 => "December"
| _ => ""

/-- strftime of month name, space, unpadded day, comma, year (the C-locale
month names; the day directive suppresses padding; glibc prints the year
unpadded). -/
def strftimeBdY (d : DateYMD) : String :=
  monthName d.month ++ " " ++ toString d.day ++ ", " ++ toString d.year

/-- format_date (lines 91-98): try the date-plus-time format, then the
date-only format, and return the input unchanged when neither parses. -/
def format_date (obs_dt : String) : String :=
  match strptimeYmdHm obs_dt with
  | some d => strftimeBdY d
  | none =>
    match strptimeYmd obs_dt with
    | some d => strftimeBdY d
    | none => obs_dt

/-! ### The assembled summary (get_checklist_species, lines 101-141) -/

/-- The checklist payload fields read by the code; every field is read
with .get. -/
structure Checklist where
  locId : Option String
  locName : Option String
  obsDt : Option String
  obs : List Obs
deriving DecidableEq, Repr

/-- The returned summary (lines 137-141). -/
structure Summary where
  species : List SpeciesEntry
  location : String
  date : String
deriving DecidableEq, Repr

/-- The pure core of get_checklist_species: taxonomy, checklist payload,
photo lookup and hotspot name stand for the fetched data.  The loop over
observations propagates the first raised exception. -/
def get_checklist_species (taxonomy : String → Option InfoDict)
    (photo : String → Option String) (hotspotName : Option String)
    (checklist : Checklist) : Except PyErr Summary := do
  let location := resolveLocation checklist.locName hotspotName
  let date := format_date (checklist.obsDt.getD "")
  let species ← checklist.obs.mapM (assembleObs taxonomy photo)
  return ⟨species, location, date⟩

/-! ### Photo Resolver (get_species_photo, lines 48-64) -/

/-- A JSON object with an optional "source" key. -/
structure ImgObj where
  source : Option String
deriving DecidableEq, Repr

/-- The page-summary JSON: the keys "originalimage" and "thumbnail" may be
absent. -/
structure WikiSummary where
  originalimage : Option ImgObj
  thumbnail : Option ImgObj
deriving DecidableEq, Repr

/-- What the HTTP layer hands back: a transport failure, or a response
with a status code and a body that may fail to parse as JSON. -/
inductive NetResult where
| netErr : NetResult
| resp : Nat → Option WikiSummary → NetResult
deriving DecidableEq, Repr

/-- The except clause at line 62 catches requests.RequestException (which
HTTPError and JSONDecodeError subclass) and KeyError. -/
def isCaughtByGetSpeciesPhoto : PyErr → Bool
| .keyError _ => true
| .httpError _ => true
| .requestException => true
| .jsonDecodeError => true
| _ => false

/-- The try block of get_species_photo (lines 55-61): raise_for_status
raises HTTPError exactly for statuses 400 to 599; then prefer
data["originalimage"]["source"], falling back to
data["thumbnail"]["source"] only when "originalimage" is absent. -/
def get_species_photo_try (r : NetResult) : Except PyErr (Option String) :=
  match r with
  | .netErr => .error .requestException
  | .resp status body =>
    if 400 ≤ status ∧ status < 600 then .error (.httpError status)
    else
      match body with
      | none => .error .jsonDecodeError
      | some data =>
        match data.originalimage with
        | some img =>
          (match img.source with
           | some s => .ok (some s)
           | none => .error (.keyError "source"))
        | none =>
          match data.thumbnail with
          | some img =>
            (match img.source with
             | some s => .ok (some s)
             | none => .error (.keyError "source"))
          | none => .ok none

/-- get_species_photo (lines 48-64): the try body with its except clause;
an uncaught exception would propagate as an error value. -/
def get_species_photo (r : NetResult) : Except PyErr (Option String) :=
  match get_species_photo_try r with
  | .ok v => .ok v
  | .error e => if isCaughtByGetSpeciesPhoto e then .ok none else .error e

/-- The 2xx success range, used to state the claim about non-2xx
responses. -/
def statusIs2xx (n : Nat) : Bool := 200 ≤ n && n < 300

end Birdseye

namespace Birdseye

/-! ### Site Generator (generate_site.py) -/

/-- html.escape with quote True, per character: the sequential replaces of
ampersand, angle brackets and quotes act independently on each original
character, so the character map is equivalent. -/
def escChar (c : Char) : String :=
  if c = '&' then "&amp;"
  else if c = '<' then "&lt;"
  else if c = '>' then "&gt;"
  else if c = Char.ofNat 34 then "&quot;"
  else if c = Char.ofNat 39 then "&#x27;"
  else String.singleton c

def escList : List Char → List Char
| [] => []
| c :: rest => (escChar c).toList ++ escList rest

/-- html.escape applied to a string. -/
def htmlEscape (s : String) : String := (escList s.toList).asString

/-- The shared display expression for a count (generate_site.py line 19
and ebird_checklist.py line 191): str of the count when truthy, else the
marker X. -/
def displayCount (v : PyVal) : String := if pyTruthy v then pyStrOf v else "X"

/-- Truthiness of bird.get("photo_url"): present and non-empty. -/
def photoTruthy (b : SpeciesEntry) : Bool := b.photo_url.getD "" != ""

/-- Lines 22-25: the img element, or the placeholder block. -/
def imgHtml (b : SpeciesEntry) : String :=
  if photoTruthy b then
    "<img src=\"" ++ htmlEscape (b.photo_url.getD "") ++ "\" alt=\"" ++
      htmlEscape b.name ++ "\" loading=\"lazy\">"
  else "<div class=\"no-photo\">No photo available</div>"

/-- Lines 27-33: one species card. -/
def cardHtml (b : SpeciesEntry) : String :=
  "      <div class=\"card\">\n        " ++ imgHtml b ++
  "\n        <div class=\"info\">\n          <h2>" ++ htmlEscape b.name ++
  "</h2>\n          <p>Count: " ++ htmlEscape (displayCount b.count) ++
  "</p>\n        </div>\n      </div>"

/-- str.join with a separator. -/
def joinWith (sep : String) : List String → String
| [] => ""
| [a] => a
| a :: rest => a ++ sep ++ joinWith sep rest

/-- The document template up to the species-count interpolation (the
doubled braces of the f-string render as single braces in the output). -/
def docHead : String := "<!DOCTYPE html>\n<html lang=\"en\">\n<head>\n  <meta charset=\"utf-8\">\n  <meta name=\"viewport\" content=\"width=device-width, initial-scale=1\">\n  <title>Bird Checklist</title>\n  <style>\n    * \x7b margin: 0; padding: 0; box-sizing: border-box; \x7d\n    body \x7b font-family: -apple-system, BlinkMacSystemFont, \"Segoe UI\", Roboto, sans-serif; background: #f5f5f5; color: #333; \x7d\n    header \x7b background: #2d5016; color: white; padding: 1.5rem; text-align: center; \x7d\n    header h1 \x7b font-size: 1.5rem; margin-bottom: 0.5rem; \x7d\n    header a \x7b color: #b8d4a0; \x7d\n    header p \x7b font-size: 0.9rem; opacity: 0.9; \x7d\n    .grid \x7b columns: 3; column-gap: 1rem; padding: 1.5rem; max-width: 1200px; margin: 0 auto; \x7d\n    @media (max-width: 900px) \x7b .grid \x7b columns: 2; \x7d \x7d\n    @media (max-width: 500px) \x7b .grid \x7b columns: 1; \x7d \x7d\n    .card \x7b background: white; border-radius: 8px; overflow: hidden; box-shadow: 0 2px 4px rgba(0,0,0,0.1); break-inside: avoid; margin-bottom: 1rem; transition: transform 0.2s; \x7d\n    .card:hover \x7b transform: translateY(-2px); box-shadow: 0 4px 12px rgba(0,0,0,0.15); \x7d\n    .card img \x7b width: 100%; display: block; \x7d\n    .no-photo \x7b width: 100%; height: 220px; background: #e0e0e0; display: flex; align-items: center; justify-content: center; color: #999; font-size: 0.9rem; \x7d\n    .info \x7b padding: 0.75rem 1rem; \x7d\n    .info h2 \x7b font-size: 1.1rem; margin-bottom: 0.25rem; \x7d\n    .info p \x7b font-size: 0.85rem; color: #666; \x7d\n  </style>\n</head>\n<body>\n  <header>\n    <h1>Bird Checklist</h1>\n    <p>"

/-- Between the species count and the escaped checklist URL. -/
def docMid1 : String := " species &middot; <a href=\""

/-- Between the escaped checklist URL and the joined cards. -/
def docMid2 : String := "\">View on eBird</a></p>\n  </header>\n  <div class=\"grid\">\n"

/-- After the joined cards. -/
def docTail : String := "\n  </div>\n</body>\n</html>\n"

/-- The complete document produced by generate_site (lines 16-73). -/
def generate_site_html (species : List SpeciesEntry) (checklist_url : String) : String :=
  docHead ++ toString species.length ++ docMid1 ++ htmlEscape checklist_url ++
    docMid2 ++ joinWith "\n" (species.map cardHtml) ++ docTail

/-- generate_site (lines 7-78): returns the path written
(os.path.join of the output directory, which defaults to docs at the
Python level, with index.html) together with the document written there. -/
def generate_site (species : List SpeciesEntry) (checklist_url : String)
    (output_dir : String) : String × String :=
  (output_dir ++ "/index.html", generate_site_html species checklist_url)

/-- The parameter names of generate_site. -/
def generate_site_params : List String := ["species", "checklist_url", "output_dir"]

/-- Python call binding: the first keyword argument that matches no
parameter name, if any; such a call raises TypeError. -/
def unexpectedKwarg (params kwargs : List String) : Option String :=
  kwargs.find? (fun k => !(params.contains k))

/-- The call made by main (ebird_checklist.py line 196): two positional
arguments plus the keyword arguments location and date. -/
def main_generate_site_call (species : List SpeciesEntry)
    (checklist_url _locationArg _dateArg : String) : Except PyErr String :=
  match unexpectedKwarg generate_site_params ["location", "date"] with
  | some k => .error (.typeError ("generate_site() got an unexpected keyword argument: " ++ k))
  | none => .ok (generate_site species checklist_url "docs").1

/-- Left-aligned padding to a minimum width, as the format specs of
main line 193. -/
def padRight (s : String) (w : Nat) : String :=
  s ++ String.mk (List.replicate (w - s.length) ' ')

/-- The per-species terminal line printed by main (lines 190-193). -/
def tableLine (b : SpeciesEntry) : String :=
  padRight (displayCount b.count) 8 ++ " " ++ padRight b.code 10 ++ " " ++
    b.name ++ "  [" ++ (if photoTruthy b then "+" else "-") ++ " photo]"

/-- Number of occurrences of a character in a string. -/
def countLt (s : String) : Nat := s.toList.count '<'

/-- Number of (possibly overlapping) occurrences of a pattern in a list:
one per position where the pattern is a prefix of the remaining list. -/
def countOcc (pat : List Char) : Nat → List Char → Nat
| acc, [] => acc
| acc, c :: rest =>
  if pat.isPrefixOf (c :: rest) then countOcc pat (Nat.succ acc) rest
  else countOcc pat acc rest

/-- Number of occurrences of a pattern string in a haystack string. -/
def countSubstr (hay pat : String) : Nat := countOcc pat.toList 0 hay.toList

end Birdseye

namespace Birdseye

/-! ## Claims -/

/-- Claim C1: the Site Generator itself writes index.html inside the
output directory and returns that path, but the call made by the main
pipeline passes location and date as keyword arguments that generate_site
does not accept, so that call raises TypeError instead of succeeding:
evaluated here at a concrete species list and URL. -/
theorem main_call_raises_type_error :
    main_generate_site_call [] "https://ebird.org/checklist/S123456789"
        "Unknown Location" "February 7, 2026"
      = .error (.typeError "generate_site() got an unexpected keyword argument: location")
  ∧ (generate_site [] "https://ebird.org/checklist/S123456789" "docs").1 = "docs/index.html" :=
  ⟨rfl, rfl⟩

/-- Claim C2, counterexample: an observation whose how-many-at-least key
is present with the falsy value 0 yields an entry whose count is 0, not
the unknown-count marker, refuting the claimed fallback for present but
falsy fields. -/
theorem count_present_falsy_kept :
    assembleObs (fun _ => none) (fun _ => none)
        ⟨some "grycat", some (.pyInt 0), some (.pyInt 7)⟩
      = .ok ⟨"grycat", "grycat", "", .pyInt 0, none⟩
  ∧ PyVal.pyInt 0 ≠ PyVal.pyStr "X" :=
  ⟨rfl, by decide⟩

/-- The count stored by the loop body is resolveCount of the observation. -/
theorem assembleObs_count (taxonomy : String → Option InfoDict)
    (photo : String → Option String) (obs : Obs) :
    ∀ e, assembleObs taxonomy photo obs = .ok e → e.count = resolveCount obs := by
  intro e h
  simp only [assembleObs] at h
  rcases hinfo : (taxonomy (obs.speciesCode.getD "")).getD
      ⟨some (obs.speciesCode.getD ""), some ""⟩ with ⟨n?, s?⟩
  rw [hinfo] at h
  cases n? with
  | none => simp at h
  | some n =>
    cases s? with
    | none => simp at h
    | some s =>
      simp only [Except.ok.injEq] at h
      subst h
      rfl

/-- Claim C2, amended: the entry count equals the how-many-at-least value
whenever that key is present (regardless of truthiness); otherwise the
how-many-at-most value when that key is present; otherwise the literal
unknown-count marker. -/
theorem count_resolution_by_presence (taxonomy : String → Option InfoDict)
    (photo : String → Option String) (obs : Obs) :
    (∀ v, obs.howManyAtleast = some v →
       ∀ e, assembleObs taxonomy photo obs = .ok e → e.count = v)
  ∧ (obs.howManyAtleast = none → ∀ v, obs.howManyAtmost = some v →
       ∀ e, assembleObs taxonomy photo obs = .ok e → e.count = v)
  ∧ (obs.howManyAtleast = none → obs.howManyAtmost = none →
       ∀ e, assembleObs taxonomy photo obs = .ok e → e.count = PyVal.pyStr "X") := by
  refine ⟨?_, ?_, ?_⟩
  · intro v hv e he
    rw [assembleObs_count taxonomy photo obs e he]
    simp [resolveCount, hv]
  · intro h0 v hv e he
    rw [assembleObs_count taxonomy photo obs e he]
    simp [resolveCount, h0, hv]
  · intro h0 h1 e he
    rw [assembleObs_count taxonomy photo obs e he]
    simp [resolveCount, h0, h1]

/-- Witness for the amended count resolution, at concrete observations for
each of the three cases. -/
theorem count_resolution_by_presence_witness :
    (⟨"c", "c", "", .pyInt 4, none⟩ : SpeciesEntry).count = .pyInt 4
  ∧ (⟨"c", "c", "", .pyInt 6, none⟩ : SpeciesEntry).count = .pyInt 6
  ∧ (⟨"c", "c", "", .pyStr "X", none⟩ : SpeciesEntry).count = .pyStr "X" :=
  ⟨(count_resolution_by_presence (fun _ => none) (fun _ => none)
      ⟨some "c", some (.pyInt 4), none⟩).1 (.pyInt 4) rfl _ rfl,
   (count_resolution_by_presence (fun _ => none) (fun _ => none)
      ⟨some "c", none, some (.pyInt 6)⟩).2.1 rfl (.pyInt 6) rfl _ rfl,
   (count_resolution_by_presence (fun _ => none) (fun _ => none)
      ⟨some "c", none, none⟩).2.2 rfl rfl _ rfl⟩

/-- Claim C5: format_date tries the date-plus-time pattern first, then the
date-only pattern, and returns the raw input unchanged when neither
parses; the two example inputs both format to February 7, 2026. -/
theorem format_date_spec :
    format_date "2026-02-07 14:30" = "February 7, 2026"
  ∧ format_date "2026-02-07" = "February 7, 2026"
  ∧ (∀ s d, strptimeYmdHm s = some d → format_date s = strftimeBdY d)
  ∧ (∀ s d, strptimeYmdHm s = none → strptimeYmd s = some d →
       format_date s = strftimeBdY d)
  ∧ (∀ s, strptimeYmdHm s = none → strptimeYmd s = none → format_date s = s) := by
  refine ⟨rfl, rfl, ?_, ?_, ?_⟩
  · intro s d h
    simp [format_date, h]
  · intro s d h1 h2
    simp [format_date, h1, h2]
  · intro s h1 h2
    simp [format_date, h1, h2]

/-- Witness for format_date: an unparsable string passes through, a
parsed date-plus-time renders through strftime, and the space-padded day
alternative of the day directive is honoured. -/
theorem format_date_spec_witness :
    format_date "hello" = "hello"
  ∧ format_date "2027-12-31 23:59" = "December 31, 2027"
  ∧ format_date "2026-02- 7 14:30" = "February 7, 2026" :=
  ⟨format_date_spec.2.2.2.2 "hello" rfl rfl,
   format_date_spec.2.2.1 "2027-12-31 23:59" ⟨2027, 12, 31⟩ rfl,
   format_date_spec.2.2.1 "2026-02- 7 14:30" ⟨2026, 2, 7⟩ rfl⟩

/-- Claim C6: when the species code is absent from the taxonomy map, the
assembled entry uses the code itself as the common name and the empty
string as the scientific name. -/
theorem unknown_code_fallback (taxonomy : String → Option InfoDict)
    (photo : String → Option String) (obs : Obs)
    (h : taxonomy (obs.speciesCode.getD "") = none) :
    assembleObs taxonomy photo obs =
      .ok ⟨obs.speciesCode.getD "", obs.speciesCode.getD "", "",
           resolveCount obs, photo (obs.speciesCode.getD "")⟩ := by
  simp [assembleObs, h]

/-- Witness for the unknown-code fallback at a concrete observation. -/
theorem unknown_code_fallback_witness :
    assembleObs (fun _ => none) (fun _ => none) ⟨some "nocode", some (.pyInt 2), none⟩
      = .ok ⟨"nocode", "nocode", "", .pyInt 2, none⟩ :=
  unknown_code_fallback (fun _ => none) (fun _ => none)
    ⟨some "nocode", some (.pyInt 2), none⟩ rfl

/-- Claim C9: every value of the mapping built by get_taxonomy carries
both the name and the sci_name key (the latter defaulting to the empty
string), and the assembler indexes sci_name unconditionally, so a
supplied taxonomy entry lacking that key makes assembly fail with a
KeyError. -/
theorem taxonomy_sci_name_invariant :
    (∀ (records : List TaxonRecord) (p : String × InfoDict), p ∈ get_taxonomy records →
       ∃ r ∈ records, p = (r.speciesCode, ⟨some r.comName, some (r.sciName.getD "")⟩))
  ∧ (∀ (taxonomy : String → Option InfoDict) (photo : String → Option String)
       (obs : Obs) (info : InfoDict),
       taxonomy (obs.speciesCode.getD "") = some info → info.sci_name = none →
       ∃ k, assembleObs taxonomy photo obs = .error (.keyError k)) := by
  constructor
  · intro records p hp
    simp only [get_taxonomy, List.mem_map] at hp
    obtain ⟨r, hr, hrp⟩ := hp
    exact ⟨r, hr, hrp.symm⟩
  · intro taxonomy photo obs info htax hsci
    rcases info with ⟨n?, s?⟩
    simp only at hsci
    subst hsci
    cases n? with
    | none => exact ⟨"name", by simp [assembleObs, htax]⟩
    | some n => exact ⟨"sci_name", by simp [assembleObs, htax]⟩

/-- Witness for the taxonomy invariant: the built mapping and a failing
assembly at concrete inputs. -/
theorem taxonomy_sci_name_invariant_witness :
    (∃ r ∈ [TaxonRecord.mk "grycat" "Gray Catbird" none],
       (("grycat", (⟨some "Gray Catbird", some ""⟩ : InfoDict)) : String × InfoDict)
         = (r.speciesCode, ⟨some r.comName, some (r.sciName.getD "")⟩))
  ∧ ∃ k, assembleObs
        (fun c => if c = "grycat" then some ⟨some "Gray Catbird", none⟩ else none)
        (fun _ => none) ⟨some "grycat", some (.pyInt 3), none⟩
      = .error (.keyError k) :=
  ⟨taxonomy_sci_name_invariant.1 [⟨"grycat", "Gray Catbird", none⟩] _ (by simp [get_taxonomy]),
   taxonomy_sci_name_invariant.2 _ _ ⟨some "grycat", some (.pyInt 3), none⟩
     ⟨some "Gray Catbird", none⟩ rfl rfl⟩

end Birdseye

namespace Birdseye

/-- Claim C10: a falsy assembled count (0, the empty string, or None) is
displayed as the marker X both in the terminal table line and in the HTML
card. -/
theorem falsy_count_displays_marker (b : SpeciesEntry)
    (h : b.count = .pyInt 0 ∨ b.count = .pyStr "" ∨ b.count = .pyNone) :
    displayCount b.count = "X"
  ∧ (∃ pre suf, cardHtml b = pre ++ "Count: X" ++ suf)
  ∧ (∃ suf, tableLine b = "X       " ++ suf) := by
  have hd : displayCount b.count = "X" := by
    rcases h with h | h | h <;> rw [h] <;> rfl
  refine ⟨hd, ?_, ?_⟩
  · refine ⟨"      <div class=\"card\">\n        " ++ imgHtml b ++
      "\n        <div class=\"info\">\n          <h2>" ++ htmlEscape b.name ++
      "</h2>\n          <p>", "</p>\n        </div>\n      </div>", ?_⟩
    simp only [cardHtml, hd]
    simp only [String.append_assoc]
    rfl
  · refine ⟨" " ++ padRight b.code 10 ++ " " ++ b.name ++ "  [" ++
      (if photoTruthy b then "+" else "-") ++ " photo]", ?_⟩
    simp only [tableLine, hd]
    simp only [String.append_assoc]
    rfl

/-- Witness for the falsy-count display rule at an explicit count of 0. -/
theorem falsy_count_displays_marker_witness :
    displayCount (PyVal.pyInt 0) = "X"
  ∧ (∃ pre suf, cardHtml ⟨"grycat", "Gray Catbird", "", .pyInt 0, none⟩
       = pre ++ "Count: X" ++ suf)
  ∧ (∃ suf, tableLine ⟨"grycat", "Gray Catbird", "", .pyInt 0, none⟩ = "X       " ++ suf) :=
  falsy_count_displays_marker ⟨"grycat", "Gray Catbird", "", .pyInt 0, none⟩ (Or.inl rfl)

/-- Claim C7, counterexample: a non-2xx response that raise_for_status
does not treat as an error (a 301 with a JSON body carrying the image)
makes the resolver return the image URL, not an absent value. -/
theorem photo_redirect_status_returns_url :
    statusIs2xx 301 = false
  ∧ get_species_photo (.resp 301 (some ⟨some ⟨some "https://img.example/x.jpg"⟩, none⟩))
      = .ok (some "https://img.example/x.jpg") :=
  ⟨rfl, rfl⟩

/-- Every exception the try body of get_species_photo can raise is in the
caught set. -/
theorem get_species_photo_try_caught (r : NetResult) (e : PyErr)
    (h : get_species_photo_try r = .error e) : isCaughtByGetSpeciesPhoto e = true := by
  cases r with
  | netErr =>
    simp only [get_species_photo_try, Except.error.injEq] at h
    subst h; rfl
  | resp s body =>
    by_cases hs : 400 ≤ s ∧ s < 600
    · simp only [get_species_photo_try, if_pos hs, Except.error.injEq] at h
      subst h; rfl
    · rcases body with _ | ⟨oi, th⟩
      · simp only [get_species_photo_try, if_neg hs, Except.error.injEq] at h
        subst h; rfl
      · rcases oi with _ | ⟨src⟩
        · rcases th with _ | ⟨tsrc⟩
          · simp only [get_species_photo_try, if_neg hs] at h
            exact Except.noConfusion h
          · rcases tsrc with _ | u
            · simp only [get_species_photo_try, if_neg hs, Except.error.injEq] at h
              subst h; rfl
            · simp only [get_species_photo_try, if_neg hs] at h
              exact Except.noConfusion h
        · rcases src with _ | u
          · simp only [get_species_photo_try, if_neg hs, Except.error.injEq] at h
            subst h; rfl
          · simp only [get_species_photo_try, if_neg hs] at h
            exact Except.noConfusion h

/-- Claim C7, amended: get_species_photo never propagates an exception;
a network failure, an HTTP error response (status 400 to 599), an
unparsable body or a missing field all yield an absent value, and
otherwise the full-resolution image source is preferred, then the
thumbnail source, else absent. -/
theorem get_species_photo_spec :
    (∀ r, ∃ v, get_species_photo r = .ok v)
  ∧ get_species_photo .netErr = .ok none
  ∧ (∀ s body, 400 ≤ s → s < 600 → get_species_photo (.resp s body) = .ok none)
  ∧ (∀ s, get_species_photo (.resp s none) = .ok none)
  ∧ (∀ s u thumb, ¬(400 ≤ s ∧ s < 600) →
       get_species_photo (.resp s (some ⟨some ⟨some u⟩, thumb⟩)) = .ok (some u))
  ∧ (∀ s thumb, ¬(400 ≤ s ∧ s < 600) →
       get_species_photo (.resp s (some ⟨some ⟨none⟩, thumb⟩)) = .ok none)
  ∧ (∀ s u, ¬(400 ≤ s ∧ s < 600) →
       get_species_photo (.resp s (some ⟨none, some ⟨some u⟩⟩)) = .ok (some u))
  ∧ (∀ s, ¬(400 ≤ s ∧ s < 600) →
       get_species_photo (.resp s (some ⟨none, none⟩)) = .ok none) := by
  refine ⟨?_, rfl, ?_, ?_, ?_, ?_, ?_, ?_⟩
  · intro r
    cases hr : get_species_photo_try r with
    | ok v => exact ⟨v, by simp [get_species_photo, hr]⟩
    | error e =>
      exact ⟨none, by simp [get_species_photo, hr, get_species_photo_try_caught r e hr]⟩
  · intro s body h1 h2
    simp [get_species_photo, get_species_photo_try, h1, h2, isCaughtByGetSpeciesPhoto]
  · intro s
    by_cases hc : 400 ≤ s ∧ s < 600 <;>
      simp [get_species_photo, get_species_photo_try, isCaughtByGetSpeciesPhoto, hc]
  · intro s u thumb h
    simp [get_species_photo, get_species_photo_try, h]
  · intro s thumb h
    simp [get_species_photo, get_species_photo_try, isCaughtByGetSpeciesPhoto, h]
  · intro s u h
    simp [get_species_photo, get_species_photo_try, h]
  · intro s h
    simp [get_species_photo, get_species_photo_try, h]

/-- Witness for the photo resolver: a 404 yields an absent value and a
200 with only a thumbnail yields the thumbnail source. -/
theorem get_species_photo_spec_witness :
    get_species_photo (.resp 404 none) = .ok none
  ∧ get_species_photo (.resp 200 (some ⟨none, some ⟨some "https://t.example/t.jpg"⟩⟩))
      = .ok (some "https://t.example/t.jpg") :=
  ⟨get_species_photo_spec.2.2.1 404 none (by norm_num) (by norm_num),
   get_species_photo_spec.2.2.2.2.2.2.1 200 "https://t.example/t.jpg" (by decide)⟩

/-- The taxonomy map exactly as claim C3 writes it: the grycat info
dictionary holds only the name key. -/
def taxC3bad : String → Option InfoDict :=
  fun c => if c = "grycat" then some ⟨some "Gray Catbird", none⟩ else none

/-- The same map with the sci_name key present, as every map built by
get_taxonomy has it. -/
def taxC3 : String → Option InfoDict :=
  fun c => if c = "grycat" then some ⟨some "Gray Catbird", some ""⟩ else none

/-- A photo lookup that finds nothing. -/
def photoC3 : String → Option String := fun _ => none

/-- The checklist of claim C3: one observation of grycat with
how-many-at-least 3. -/
def checklistC3 : Checklist :=
  ⟨some "L1", some "Forest Park", some "2026-02-07 14:30",
   [⟨some "grycat", some (.pyInt 3), none⟩]⟩

/-- The species entry claim C3 expects. -/
def entryC3 : SpeciesEntry := ⟨"grycat", "Gray Catbird", "", .pyInt 3, none⟩

/-- The document generated for that single entry. -/
def docC3 : String := generate_site_html [entryC3] "https://ebird.org/checklist/S218444309"

/-- Claim C3, counterexample: with the taxonomy map exactly as the claim
gives it (the grycat record holding only a name), the assembler produces
no species entry at all: indexing sci_name raises KeyError, so the
pipeline fails instead of returning the claimed summary. -/
theorem end_to_end_literal_taxonomy_fails :
    get_checklist_species taxC3bad photoC3 none checklistC3
      = .error (.keyError "sci_name") := rfl

set_option maxRecDepth 100000 in
/-- Claim C3, amended: with the sci_name key present in the taxonomy
record (holding the empty string), the assembler produces exactly the one
expected entry, and the generated document contains exactly one card, one
occurrence of the species name, one of the count line and one of the
no-photo placeholder. -/
theorem end_to_end_gray_catbird :
    get_checklist_species taxC3 photoC3 none checklistC3
      = .ok ⟨[entryC3], "Forest Park", "February 7, 2026"⟩
  ∧ countSubstr docC3 "<div class=\"card\">" = 1
  ∧ countSubstr docC3 "Gray Catbird" = 1
  ∧ countSubstr docC3 "Count: 3" = 1
  ∧ countSubstr docC3 "No photo available" = 1 := by
  refine ⟨rfl, ?_, ?_, ?_, ?_⟩ <;> decide

end Birdseye

namespace Birdseye

end Birdseye

namespace Birdseye

/-- Character counts distribute over string concatenation. -/
theorem countLt_append (a b : String) : countLt (a ++ b) = countLt a + countLt b := by
  have h : (a ++ b).toList = a.toList ++ b.toList := rfl
  simp [countLt, h, List.count_append]

/-- No escaped character expands to text containing an opening angle
bracket. -/
theorem count_lt_escChar (c : Char) : List.count '<' (escChar c).data = 0 := by
  unfold escChar
  split_ifs with h1 h2 h3 h4 h5
  · decide
  · decide
  · decide
  · decide
  · decide
  · simp [String.singleton, List.count_cons, h2]

/-- Escaped text contains no opening angle bracket. -/
theorem count_lt_escList (l : List Char) : (escList l).count '<' = 0 := by
  induction l with
  | nil => rfl
  | cons c rest ih => simp [escList, List.count_append, count_lt_escChar, ih]

/-- html.escape output contains no opening angle bracket. -/
theorem countLt_htmlEscape (s : String) : countLt (htmlEscape s) = 0 :=
  count_lt_escList s.toList

/-- The newline separator contains no opening angle bracket. -/
theorem countLt_newline : countLt "\n" = 0 := rfl

/-- A card contributes a fixed number of tags: nine with a photo, ten with
the placeholder block, independent of the interpolated text. -/
theorem countLt_cardHtml (b : SpeciesEntry) :
    countLt (cardHtml b) = if photoTruthy b then 9 else 10 := by
  by_cases hp : photoTruthy b = true
  · simp only [cardHtml, imgHtml, hp, if_true, countLt_append, countLt_htmlEscape]
    decide
  · simp only [Bool.not_eq_true] at hp
    simp only [cardHtml, imgHtml, hp, Bool.false_eq_true, if_false, countLt_append,
      countLt_htmlEscape]
    decide

/-- The joined card grid contributes the sum of the per-card tag counts. -/
theorem countLt_joinWith_cards : ∀ l : List SpeciesEntry,
    countLt (joinWith "\n" (l.map cardHtml))
      = (l.map fun b => if photoTruthy b then (9 : Nat) else 10).sum
| [] => by simp [joinWith, countLt]
| [b] => by simp [joinWith, countLt_cardHtml]
| b :: b2 :: t => by
  have ih := countLt_joinWith_cards (b2 :: t)
  simp only [List.map_cons, joinWith, countLt_append, countLt_newline, countLt_cardHtml]
  simp only [List.map_cons] at ih
  rw [ih]
  simp [List.sum_cons]

/-- The escaped name of a listed species occurs within the joined cards. -/
theorem joinWith_cards_name_factor (b : SpeciesEntry) :
    ∀ l : List SpeciesEntry, b ∈ l →
      ∃ p s, joinWith "\n" (l.map cardHtml) = p ++ htmlEscape b.name ++ s
| [], hb => absurd hb (List.not_mem_nil b)
| [a], hb => by
  have hba : b = a := by simpa using hb
  subst hba
  refine ⟨"      <div class=\"card\">\n        " ++ imgHtml b ++
    "\n        <div class=\"info\">\n          <h2>",
    "</h2>\n          <p>Count: " ++ htmlEscape (displayCount b.count) ++
    "</p>\n        </div>\n      </div>", ?_⟩
  simp only [List.map_cons, List.map_nil, joinWith, cardHtml]
  simp only [String.append_assoc]
| a :: a2 :: t, hb => by
  rcases List.mem_cons.mp hb with hba | hb2
  · subst hba
    refine ⟨"      <div class=\"card\">\n        " ++ imgHtml b ++
      "\n        <div class=\"info\">\n          <h2>",
      "</h2>\n          <p>Count: " ++ htmlEscape (displayCount b.count) ++
      "</p>\n        </div>\n      </div>" ++ "\n" ++
        joinWith "\n" ((a2 :: t).map cardHtml), ?_⟩
    simp only [List.map_cons, joinWith, cardHtml]
    simp only [String.append_assoc]
  · obtain ⟨p, s, hps⟩ := joinWith_cards_name_factor b (a2 :: t) hb2
    refine ⟨cardHtml a ++ "\n" ++ p, s, ?_⟩
    simp only [List.map_cons] at hps
    simp only [List.map_cons, joinWith]
    rw [hps]
    simp only [String.append_assoc]

/-- Claim C8: interpolated text is HTML-escaped before insertion: the
escaped form of every listed species name occurs in the document, escaped
text never contains an opening angle bracket, and the number of opening
angle brackets of the document depends only on the length and
photo-presence pattern of the species list, never on the names, counts or
URLs themselves, so interpolated text cannot alter the tag structure. -/
theorem generate_site_escapes (species : List SpeciesEntry) (url : String) :
    (∀ b ∈ species, ∃ pre suf,
       generate_site_html species url = pre ++ htmlEscape b.name ++ suf)
  ∧ (∀ s : String, countLt (htmlEscape s) = 0)
  ∧ (∀ (species2 : List SpeciesEntry) (url2 : String),
       species.map photoTruthy = species2.map photoTruthy →
       countLt (generate_site_html species url)
         = countLt (generate_site_html species2 url2)) := by
  refine ⟨?_, countLt_htmlEscape, ?_⟩
  · intro b hb
    obtain ⟨p, s, hps⟩ := joinWith_cards_name_factor b species hb
    refine ⟨docHead ++ toString species.length ++ docMid1 ++ htmlEscape url ++ docMid2 ++ p,
      s ++ docTail, ?_⟩
    simp only [generate_site_html]
    rw [hps]
    simp only [String.append_assoc]
  · intro species2 url2 hmap
    have hlen : species.length = species2.length := by
      simpa using congrArg List.length hmap
    have hsum : (species.map fun b => if photoTruthy b then (9 : Nat) else 10).sum
        = (species2.map fun b => if photoTruthy b then (9 : Nat) else 10).sum := by
      have h1 : (species.map fun b => if photoTruthy b then (9 : Nat) else 10)
          = (species.map photoTruthy).map (fun t => if t then (9 : Nat) else 10) := by
        rw [List.map_map]
        rfl
      rw [h1, hmap, List.map_map]
      rfl
    simp only [generate_site_html, countLt_append, countLt_htmlEscape,
      countLt_joinWith_cards]
    rw [hlen, hsum]

/-- Witness for the escaping claim at a name holding angle brackets and an
ampersand, against a second list with the same shape. -/
theorem generate_site_escapes_witness :
    (∃ pre suf, generate_site_html [⟨"c1", "A<B&C>", "", .pyInt 2, none⟩] "https://e.org/x"
       = pre ++ htmlEscape "A<B&C>" ++ suf)
  ∧ countLt (htmlEscape "A<B&C>") = 0
  ∧ countLt (generate_site_html [⟨"c1", "A<B&C>", "", .pyInt 2, none⟩] "https://e.org/x")
      = countLt (generate_site_html [⟨"zz", "Plain Bird", "sci", .pyStr "4", none⟩] "u") :=
  have h := generate_site_escapes [⟨"c1", "A<B&C>", "", .pyInt 2, none⟩] "https://e.org/x"
  ⟨h.1 _ (List.mem_singleton.mpr rfl), h.2.1 "A<B&C>",
   h.2.2 [⟨"zz", "Plain Bird", "sci", .pyStr "4", none⟩] "u" rfl⟩

end Birdseye
